import Mathlib

/-!
Verification development for the ebyst boundary-scan tool.

The definitions below are a shallow embedding of the Python sources:
`src/ebyst/tap_controller.py`, `src/ebyst/device.py`,
`src/ebyst/stapl/{expressions,data,interpreter,stapl}.py`.
Machine integers are modelled as `Nat`/`Int`; `bitarray` values are
`List Bool` in shift order (index 0 is the first bit to/from the cable);
Python exceptions are modelled with `Except Err`.
-/

/-- Errors raised by the embedded code (Python exception classes collapsed
to tags; the message text is irrelevant to control flow). -/
inductive Err
  | chainNotValidated
  | instrUnsupported
  | stuck0
  | stuck1
  | devCountMismatch
  | irLenMismatch
  | idcodeMismatch
  | brLenMismatch
  | noOutputCell
  | noControlCell
  | indexError
  | nextWithoutFor
  | nextVarMismatch
  | varNotDefined
  | pcOutOfRange
  | fuelExhausted
  | underLength
  deriving DecidableEq, Repr

instance {ε α : Type} [DecidableEq ε] [DecidableEq α] : DecidableEq (Except ε α)
  | Except.error e1, Except.error e2 =>
    if h : e1 = e2 then isTrue (by rw [h])
    else isFalse fun hh => h (Except.error.inj hh)
  | Except.ok v1, Except.ok v2 =>
    if h : v1 = v2 then isTrue (by rw [h])
    else isFalse fun hh => h (Except.ok.inj hh)
  | Except.error _, Except.ok _ => isFalse fun hh => Except.noConfusion hh
  | Except.ok _, Except.error _ => isFalse fun hh => Except.noConfusion hh

/-- TAP controller states of the `State` IntEnum in `tap_controller.py`. -/
inductive TapState
  | TEST_LOGIC_RESET
  | RUN_TEST_IDLE
  | SELECT_DR_SCAN
  | CAPTURE_DR
  | SHIFT_DR
  | EXIT1_DR
  | PAUSE_DR
  | EXIT2_DR
  | UPDATE_DR
  | SELECT_IR_SCAN
  | CAPTURE_IR
  | SHIFT_IR
  | EXIT1_IR
  | PAUSE_IR
  | EXIT2_IR
  | UPDATE_IR
  deriving DecidableEq, Repr, Fintype

open TapState

/-- Numeric codes of the `State(IntEnum)` members; `_goto` compares these
codes to decide the branch taken at `SELECT_DR_SCAN`/`SELECT_IR_SCAN`. -/
def TapState.code : TapState → Nat
  | TEST_LOGIC_RESET => 0
  | RUN_TEST_IDLE => 1
  | SELECT_DR_SCAN => 10
  | CAPTURE_DR => 11
  | SHIFT_DR => 12
  | EXIT1_DR => 13
  | PAUSE_DR => 14
  | EXIT2_DR => 15
  | UPDATE_DR => 16
  | SELECT_IR_SCAN => 20
  | CAPTURE_IR => 21
  | SHIFT_IR => 22
  | EXIT1_IR => 23
  | PAUSE_IR => 24
  | EXIT2_IR => 25
  | UPDATE_IR => 26

/-- One iteration of the routing loop in `TapController._goto`: given the
current state and the target, return the TMS bit appended and the next
state, mirroring the if/elif chain of the source. -/
def gotoStep (state target : TapState) : Bool × TapState :=
  match state with
  | TEST_LOGIC_RESET => (false, RUN_TEST_IDLE)
  | RUN_TEST_IDLE => (true, SELECT_DR_SCAN)
  | SELECT_DR_SCAN =>
    if SELECT_DR_SCAN.code < target.code ∧ target.code ≤ UPDATE_DR.code then
      (false, CAPTURE_DR)
    else
      (true, SELECT_IR_SCAN)
  | CAPTURE_DR =>
    if target = SHIFT_DR then (false, SHIFT_DR) else (true, EXIT1_DR)
  | SHIFT_DR => (true, EXIT1_DR)
  | EXIT1_DR =>
    if target = PAUSE_DR ∨ target = EXIT2_DR ∨ target = SHIFT_DR then
      (false, PAUSE_DR)
    else
      (true, UPDATE_DR)
  | PAUSE_DR => (true, EXIT2_DR)
  | EXIT2_DR =>
    if target = SHIFT_DR ∨ target = EXIT1_DR ∨ target = PAUSE_DR then
      (false, SHIFT_DR)
    else
      (true, UPDATE_DR)
  | UPDATE_DR =>
    if target = RUN_TEST_IDLE then (false, RUN_TEST_IDLE) else (true, SELECT_DR_SCAN)
  | SELECT_IR_SCAN =>
    if SELECT_IR_SCAN.code < target.code ∧ target.code ≤ UPDATE_IR.code then
      (false, CAPTURE_IR)
    else
      (true, TEST_LOGIC_RESET)
  | CAPTURE_IR =>
    if target = SHIFT_IR then (false, SHIFT_IR) else (true, EXIT1_IR)
  | SHIFT_IR => (true, EXIT1_IR)
  | EXIT1_IR =>
    if target = PAUSE_IR ∨ target = EXIT2_IR ∨ target = SHIFT_IR then
      (false, PAUSE_IR)
    else
      (true, UPDATE_IR)
  | PAUSE_IR => (true, EXIT2_IR)
  | EXIT2_IR =>
    if target = SHIFT_IR ∨ target = EXIT1_IR ∨ target = PAUSE_IR then
      (false, SHIFT_IR)
    else
      (true, UPDATE_IR)
  | UPDATE_IR =>
    if target = RUN_TEST_IDLE then (false, RUN_TEST_IDLE) else (true, SELECT_DR_SCAN)

/-- The TMS bit string produced by the `while state != target_state` loop of
`_goto`, with explicit fuel; `none` means the loop did not reach the target
within `fuel` iterations (in Python it would still be running). -/
def gotoSteps : Nat → TapState → TapState → Option (List Bool)
  | 0, s, t => if s = t then some [] else none
  | fuel + 1, s, t =>
    if s = t then some []
    else
      let p := gotoStep s t
      (gotoSteps fuel p.2 t).map (fun l => p.1 :: l)

/-- Values of the `std_logic` patterns supported by `StdLogicPattern` in
`device.py`: fixed bits and the dont-care `X`. -/
inductive StdLogic
  | S0
  | S1
  | SX
  deriving DecidableEq, Repr

/-- Comparison of a `StdLogicPattern` with a bit string
(`StdLogicPattern.__eq__`): lengths must agree and every non-`X` position
must match. -/
def patternMatches (p : List StdLogic) (bits : List Bool) : Bool :=
  p.length == bits.length &&
    (List.zip p bits).all fun cb =>
      match cb.1 with
      | StdLogic.S0 => !cb.2
      | StdLogic.S1 => cb.2
      | StdLogic.SX => true

/-- A boundary-scan cell (`Cell` in `device.py`). `out_value` is the integer
shifted out on the next cycle, `in_value` the last captured bit (`None`
until a first capture). `out_dis_ctl` is the output-disable value named in
the BSDL cell record; BSDL supplies it for every cell that is referenced
through a control-cell index, which are the only cells whose
`out_dis_ctl` is ever read. -/
structure Cell where
  out_value : Nat
  in_value : Option Bool
  out_dis_ctl : Nat
  deriving DecidableEq, Repr

/-- A device on the chain (`Device` in `device.py`): instruction register
length, IDCODE pattern (stored in shift order, bit 0 first), opcode table
(name to bit string in shift order) and the boundary-register cells. -/
structure Device where
  irlen : Nat
  idcode : List StdLogic
  opcodes : List (String × List Bool)
  cells : List Cell
  deriving DecidableEq, Repr

/-- Per-device `generate_br`: append each cell's `out_value` as a bit
(Python `bitarray.append` applies truthiness to the integer). -/
def deviceGenerateBr (dev : Device) : List Bool :=
  dev.cells.map fun cl => decide (cl.out_value ≠ 0)

/-- Per-device `update_br`: requires a bit string of exactly the cell count
and stores each bit into the matching cell's `in_value`. -/
def deviceUpdateBr (dev : Device) (br : List Bool) : Except Err Device :=
  if br.length ≠ dev.cells.length then Except.error Err.brLenMismatch
  else
    Except.ok
      { dev with
        cells := List.zipWith (fun cl b => { cl with in_value := some b }) dev.cells br }

/-- State of the embedded `TapController`: the current TAP state, the read
position in the TDO stream delivered by the driver, the `validated` flag of
the chain, the chain itself, the cycle counter and the log of TDI strings
transmitted (each tagged with the TAP state it was shifted in). -/
structure TapCtl where
  state : TapState
  pos : Nat
  validated : Bool
  chain : List Device
  cycle_counter : Nat
  shifts : List (TapState × List Bool)
  deriving DecidableEq, Repr

/-- Total version of `_goto` used inside the other controller operations:
the routing always terminates (`gotoSteps_total`), and on termination the
loop variable equals the target, which the source assigns to `self.state`.
The TMS bits go to the driver and are not recorded. -/
def gotoC (c : TapCtl) (t : TapState) : TapCtl :=
  { c with state := t }

/-- Assignment to `chain.validated`. -/
def setValidated (c : TapCtl) (b : Bool) : TapCtl :=
  { c with validated := b }

/-- Driver abstraction (the transport contract): `tdo` is the stream of
bits returned by successive TDO reads, `duplex` the response of
`transfer_tdi_tdo_str` to a full-duplex shift. -/
structure Driver where
  tdo : Nat → Bool
  duplex : List Bool → List Bool

/-- One `transfer` call: read the next TDO bit, advance the stream. -/
def transfer (drv : Nat → Bool) (c : TapCtl) : Bool × TapCtl :=
  (drv c.pos, { c with pos := c.pos + 1 })

/-- A `receive_tdo_str` call: read `n` TDO bits. -/
def receive (drv : Nat → Bool) (c : TapCtl) (n : Nat) : List Bool × TapCtl :=
  ((List.range n).map (fun i => drv (c.pos + i)), { c with pos := c.pos + n })

/-- A `transmit_tdi_str` call: log the TDI bits with the TAP state they were
shifted in; TDO is ignored. -/
def transmit (c : TapCtl) (bits : List Bool) : TapCtl :=
  { c with shifts := c.shifts ++ [(c.state, bits)] }

/-- The `Chain.generate_ir` loop body, with the accumulator explicit: for
each device the opcode for the instruction is looked up and prepended to
the accumulated TDI string; a missing opcode raises. -/
def genIrAux (instr : String) : List Device → List Bool → Except Err (List Bool)
  | [], acc => Except.ok acc
  | dev :: ds, acc =>
    match dev.opcodes.lookup instr with
    | none => Except.error Err.instrUnsupported
    | some op => genIrAux instr ds (op ++ acc)

/-- Embedding of `Chain.generate_ir`. -/
def generateIr (chain : List Device) (instr : String) : Except Err (List Bool) :=
  genIrAux instr chain []

/-- Embedding of `TapController.load_instruction`: requires a validated
chain, builds the IR stream, routes to SHIFT_IR, shifts it, moves to
EXIT1_IR and routes to UPDATE_IR. -/
def load_instruction (c : TapCtl) (instr : String) : Except Err Unit × TapCtl :=
  if !c.validated then (Except.error Err.chainNotValidated, c)
  else
    match generateIr c.chain instr with
    | Except.error e => (Except.error e, c)
    | Except.ok bits =>
      let c := gotoC c SHIFT_IR
      let c := transmit c bits
      let c := { c with state := EXIT1_IR }
      let c := gotoC c UPDATE_IR
      (Except.ok (), c)

/-- Embedding of `TapController.read_register`. -/
def read_register (drv : Nat → Bool) (c : TapCtl) (n : Nat) :
    Except Err (List Bool) × TapCtl :=
  if !c.validated then (Except.error Err.chainNotValidated, c)
  else
    let c := gotoC c SHIFT_DR
    let p := receive drv c n
    let c := { p.2 with state := EXIT1_DR }
    let c := gotoC c UPDATE_DR
    (Except.ok p.1, c)

/-- Embedding of `TapController.read_write_register` (full-duplex DR
shift). -/
def read_write_register (d : Driver) (c : TapCtl) (tdi : List Bool) :
    Except Err (List Bool) × TapCtl :=
  if !c.validated then (Except.error Err.chainNotValidated, c)
  else
    let c := gotoC c SHIFT_DR
    let c := transmit c tdi
    let tdo := d.duplex tdi
    let c := { c with state := EXIT1_DR }
    let c := gotoC c UPDATE_DR
    (Except.ok tdo, c)

/-- Controller with an empty chain in a given state, as observed right
after `enter_state` wrapped `_goto`. -/
def mkCtl (s : TapState) : TapCtl :=
  { state := s, pos := 0, validated := false, chain := [], cycle_counter := 0, shifts := [] }

/-- Embedding of `TapController.enter_state`: run the `_goto` routing loop;
`none` models a loop that never reaches the target. -/
def enter_state (c : TapCtl) (t : TapState) : Option TapCtl :=
  (gotoSteps 16 c.state t).map fun _ => { c with state := t }

/-- Modelled from the spec wording, for comparison with `generateIr`: the
concatenation of the per-device opcodes in reverse chain order (the
TDO-most device first, so the TDI-most device occupies the high bits). -/
def irStreamSpec (chain : List Device) (instr : String) : List Bool :=
  (chain.reverse.map fun dev => (dev.opcodes.lookup instr).getD []).flatten

/-- C2 counterexample data: two devices with distinct, distinguishable
opcodes for the same instruction. Device `devA` is TDI-most. -/
def devA : Device :=
  { irlen := 1, idcode := [], opcodes := [("BYPASS", [true]), ("EXTEST", [true])], cells := [] }

def devB : Device :=
  { irlen := 2, idcode := [],
    opcodes := [("BYPASS", [true, true]), ("EXTEST", [false, false])], cells := [] }

def ctlAB : TapCtl :=
  { state := RUN_TEST_IDLE, pos := 0, validated := true, chain := [devA, devB],
    cycle_counter := 0, shifts := [] }

/-- Embedding of `Chain.generate_br`: each device's boundary register is
prepended to the accumulated string, so the TDI-most device ends up at the
high bit indices. -/
def chainGenerateBr (chain : List Device) : List Bool :=
  chain.foldl (fun acc dev => deviceGenerateBr dev ++ acc) []

/-- Embedding of `Chain.brlen`. -/
def chainBrlen (chain : List Device) : Nat :=
  (chain.map fun dev => dev.cells.length).sum

/-- Embedding of `Chain.update_br`: devices consume consecutive low-to-high
slices of the captured string, first device first. -/
def chainUpdateBrAux : List Device → List Bool → Except Err (List Device)
  | [], _ => Except.ok []
  | dev :: ds, br =>
    match deviceUpdateBr dev (br.take dev.cells.length) with
    | Except.error e => Except.error e
    | Except.ok dev2 =>
      match chainUpdateBrAux ds (br.drop dev.cells.length) with
      | Except.error e => Except.error e
      | Except.ok ds2 => Except.ok (dev2 :: ds2)

/-- The boundary-register part of `TapController.cycle` performed by the
elected task: generate the BR, run the full-duplex DR shift, distribute the
captured bits back to the cells and increment `cycle_counter`. -/
def scanOnce (d : Driver) (c : TapCtl) : Except Err Unit × TapCtl :=
  let br := chainGenerateBr c.chain
  let p := read_write_register d c br
  match p.1 with
  | Except.error e => (Except.error e, p.2)
  | Except.ok tdo =>
    match chainUpdateBrAux p.2.chain tdo with
    | Except.error e => (Except.error e, p.2)
    | Except.ok chain2 =>
      (Except.ok (), { p.2 with chain := chain2, cycle_counter := p.2.cycle_counter + 1 })

/-- A cell after a loopback capture of its own output bit. -/
def cellEcho (cl : Cell) : Cell :=
  { cl with in_value := some (decide (cl.out_value ≠ 0)) }

/-- A device after a loopback capture of its own boundary register. -/
def deviceEcho (dev : Device) : Device :=
  { dev with cells := dev.cells.map cellEcho }

/-- EXTEST loopback driver: the full-duplex shift returns exactly the bits
that were shifted out. -/
def loopbackDrv : Driver :=
  { tdo := fun _ => false, duplex := fun x => x }

/-- C3 counterexample data: two one-cell devices; the TDI-most device devP
drives 0, devQ drives 1. -/
def devP : Device :=
  { irlen := 1, idcode := [], opcodes := [("BYPASS", [true])],
    cells := [{ out_value := 0, in_value := none, out_dis_ctl := 0 }] }

def devQ : Device :=
  { irlen := 1, idcode := [], opcodes := [("BYPASS", [true])],
    cells := [{ out_value := 1, in_value := none, out_dis_ctl := 0 }] }

def ctlPQ : TapCtl :=
  { state := RUN_TEST_IDLE, pos := 0, validated := true, chain := [devP, devQ],
    cycle_counter := 0, shifts := [] }

/-- Phase of a cooperative task executing `cycle()`: `begun` is a task that
has not yet run (it will read `cycle_counter` and yield), `resumed saved`
is a task resumed after `asyncio.sleep(0)` holding the counter value it
read before yielding. -/
inductive TaskPhase
  | begun
  | resumed (saved : Nat)
  deriving DecidableEq, Repr

/-- State of the single-threaded cooperative scheduler: the FIFO ready
queue, the shared controller, the number of boundary-register scans
performed, the controller snapshot observed by each completed task, and
whether any task raised. -/
structure Sched where
  queue : List TaskPhase
  ctl : TapCtl
  scans : Nat
  obs : List TapCtl
  failed : Bool
  deriving Repr

/-- One scheduler step: run the task at the head of the ready queue to its
next suspension point or completion, mirroring `TapController.cycle`. A
begun task saves `cycle_counter` and requeues at the tail
(`asyncio.sleep(0)`); a resumed task performs the scan only when no other
task did so while it slept. -/
def schedStep (d : Driver) (s : Sched) : Sched :=
  match s.queue with
  | [] => s
  | TaskPhase.begun :: rest =>
    { s with queue := rest ++ [TaskPhase.resumed s.ctl.cycle_counter] }
  | TaskPhase.resumed saved :: rest =>
    if saved = s.ctl.cycle_counter then
      match scanOnce d s.ctl with
      | (Except.ok _, c2) =>
        { s with queue := rest, ctl := c2, scans := s.scans + 1, obs := s.obs ++ [c2] }
      | (Except.error _, c2) => { s with queue := rest, ctl := c2, failed := true }
    else
      { s with queue := rest, obs := s.obs ++ [s.ctl] }

/-- Run the scheduler for a given number of steps. -/
def schedRun (d : Driver) : Nat → Sched → Sched
  | 0, s => s
  | n + 1, s => schedRun d n (schedStep d s)

/-- Scheduler with `k` fresh tasks each about to call `cycle()` once on the
shared controller. -/
def initSched (k : Nat) (c : TapCtl) : Sched :=
  { queue := List.replicate k TaskPhase.begun, ctl := c, scans := 0, obs := [], failed := false }

/-- Controller used to instantiate the C4 theorem concretely. -/
def ctlW : TapCtl :=
  { state := RUN_TEST_IDLE, pos := 0, validated := true, chain := [devQ],
    cycle_counter := 5, shifts := [] }

/-- The controller snapshot after the single scan of the C4 witness run. -/
def ctlW2 : TapCtl := (scanOnce loopbackDrv ctlW).2

/-- A device pin (`Pin` in `device.py`); the three optional fields are
indices into the owning device's cell vector (the source stores object
references established by the `Device` constructor). -/
structure Pin where
  input_cell : Option Nat
  output_cell : Option Nat
  control_cell : Option Nat
  deriving DecidableEq, Repr

/-- Embedding of `Pin.output_enable` over the cell store. It mirrors the
if/elif/else chain of the source: no output cell raises; no control cell
raises only when an input cell is present, otherwise the call silently
does nothing; with a control cell, enabling writes `[1, 0][disable]` and
disabling writes `disable`, where `disable` is the output cell's
`out_dis_ctl`. -/
def output_enable (cells : List Cell) (p : Pin) (enable : Bool) : Except Err (List Cell) :=
  match p.output_cell with
  | none => Except.error Err.noOutputCell
  | some oc =>
    match p.control_cell with
    | none =>
      match p.input_cell with
      | some _ => Except.error Err.noControlCell
      | none => Except.ok cells
    | some cc =>
      match cells[oc]? with
      | none => Except.error Err.indexError
      | some ocell =>
        match cells[cc]? with
        | none => Except.error Err.indexError
        | some ccell =>
          if enable then
            match [1, 0][ocell.out_dis_ctl]? with
            | none => Except.error Err.indexError
            | some v => Except.ok (cells.set cc { ccell with out_value := v })
          else Except.ok (cells.set cc { ccell with out_value := ocell.out_dis_ctl })

/-- A permanently-output pin: output cell only, no control, no input. -/
def pinOutOnly : Pin := { input_cell := none, output_cell := some 0, control_cell := none }

def cellsOutOnly : List Cell := [{ out_value := 1, in_value := none, out_dis_ctl := 0 }]

/-- C6 witness data: a bidirectional pin whose output cell is index 0 and
whose control cell is index 1, with disable value 1. -/
def pinBidir : Pin := { input_cell := some 0, output_cell := some 0, control_cell := some 1 }

def cellsBidir : List Cell :=
  [{ out_value := 0, in_value := none, out_dis_ctl := 1 },
   { out_value := 0, in_value := none, out_dis_ctl := 0 }]

/-- Tokens reaching `Literal.__init__` in `stapl/expressions.py`: either an
integer parsed by the decimal rule or the raw text of a `#`-, `$`- or
`@`-literal. -/
inductive StaplToken
  | intTok (v : Int)
  | strTok (s : String)
  deriving DecidableEq, Repr

/-- Value of a nonempty binary digit string, most significant digit first
(Python `int(s, 2)`); `none` on a non-digit or an empty string. -/
def binDigitsVal : Nat → List Char → Option Nat
  | acc, [] => some acc
  | acc, ch :: cs =>
    if ch = '0' then binDigitsVal (2 * acc) cs
    else if ch = '1' then binDigitsVal (2 * acc + 1) cs
    else none

def hexDigitVal (ch : Char) : Option Nat :=
  if '0' ≤ ch ∧ ch ≤ '9' then some (ch.toNat - 48)
  else if 'a' ≤ ch ∧ ch ≤ 'f' then some (ch.toNat - 97 + 10)
  else if 'A' ≤ ch ∧ ch ≤ 'F' then some (ch.toNat - 65 + 10)
  else none

/-- Value of a hexadecimal digit string, most significant first (Python
`int(s, 16)`). -/
def hexDigitsVal : Nat → List Char → Option Nat
  | acc, [] => some acc
  | acc, ch :: cs =>
    match hexDigitVal ch with
    | none => none
    | some v => hexDigitsVal (16 * acc + v) cs

def parseHexNat (s : String) : Option Nat :=
  if s.data = [] then none else hexDigitsVal 0 s.data

/-- Embedding of `Literal.__init__`: an integer token is stored as is; a
`#` token stores the binary value of its digits, a `$` token the
hexadecimal value, an `@` token stores 0. -/
def literalValue : StaplToken → Option Int
  | StaplToken.intTok v => some v
  | StaplToken.strTok s =>
    match s.data with
    | [] => none
    | ch :: rest =>
      if ch = '#' then
        if rest = [] then none else (binDigitsVal 0 rest).map Int.ofNat
      else if ch = '$' then
        if rest = [] then none else (hexDigitsVal 0 rest).map Int.ofNat
      else if ch = '@' then some 0
      else none

/-- Values produced by `Literal.evaluate` in `stapl/expressions.py`: the
`Any` class for 0 and 1, the `Int` class otherwise. No array value is
involved. -/
inductive ExprVal
  | anyV (v : Int)
  | intV (v : Int)
  deriving DecidableEq, Repr

/-- Embedding of `Literal.evaluate`. -/
def literalEvaluate (v : Int) : ExprVal :=
  if v = 0 ∨ v = 1 then ExprVal.anyV v else ExprVal.intV v

def bitChar (ch : Char) : Option Bool :=
  if ch = '0' then some false else if ch = '1' then some true else none

def bitsOfChars : List Char → Option (List Bool)
  | [] => some []
  | ch :: cs =>
    match bitChar ch with
    | none => none
    | some b =>
      match bitsOfChars cs with
      | none => none
      | some bs => some (b :: bs)

/-- Embedding of `BoolArray.__init__` on a digit string in
`stapl/data.py`: build the bitarray from the characters, then reverse it,
so index 0 is the least significant (last) character. -/
def boolArrayOfString (s : String) : Option (List Bool) :=
  (bitsOfChars s.data).map List.reverse

/-- Instructions of the STAPL interpreter fragment a FOR/NEXT program
uses: `FOR var = start TO stop [STEP step]` (defaulted step 1 is resolved
by the parser), `NEXT var`, a body statement that records the loop
variable, and `ENDPROC`. -/
inductive SInstr
  | forI (var : String) (start stop step : Int)
  | nextI (var : String)
  | exportI (var : String)
  | endprocI
  deriving DecidableEq, Repr

/-- Scope assignment (Python dict item assignment). -/
def setVar : List (String × Int) → String → Int → List (String × Int)
  | [], v, x => [(v, x)]
  | (w, y) :: rest, v, x =>
    if w = v then (w, x) :: rest else (w, y) :: setVar rest v x

/-- Interpreter frame (`StaplInterpreter.State`): program counter, scope,
loop stack (top first; an entry holds the variable, the step, the end
bound and the pc of the first body statement) and the trace of values
recorded by the body. -/
structure SFrame where
  pc : Nat
  scope : List (String × Int)
  loop_stack : List (String × Int × Int × Nat)
  outp : List Int
  deriving DecidableEq, Repr

/-- One `StaplInterpreter.execute` step on the FOR/NEXT fragment; `ok
none` is normal termination (ENDPROC with empty call stack), mirroring
lines 144-149 and 201-213 of `stapl/interpreter.py`. -/
def sStep (prog : List SInstr) (st : SFrame) : Except Err (Option SFrame) :=
  match prog[st.pc]? with
  | none => Except.error Err.pcOutOfRange
  | some instr =>
    let st := { st with pc := st.pc + 1 }
    match instr with
    | SInstr.forI v s e stp =>
      Except.ok (some { st with
        loop_stack := (v, stp, e, st.pc) :: st.loop_stack,
        scope := setVar st.scope v s })
    | SInstr.exportI v =>
      match st.scope.lookup v with
      | none => Except.error Err.varNotDefined
      | some x => Except.ok (some { st with outp := st.outp ++ [x] })
    | SInstr.endprocI => Except.ok none
    | SInstr.nextI v =>
      match st.loop_stack with
      | [] => Except.error Err.nextWithoutFor
      | (w, stp, e, first_pc) :: restLoops =>
        if w ≠ v then Except.error Err.nextVarMismatch
        else
          match st.scope.lookup v with
          | none => Except.error Err.varNotDefined
          | some cur =>
            if (0 < stp ∧ cur < e) ∨ (stp < 0 ∧ e < cur) then
              Except.ok (some { st with scope := setVar st.scope v (cur + stp), pc := first_pc })
            else Except.ok (some { st with loop_stack := restLoops })

/-- Run the interpreter with explicit fuel. -/
def sRun (prog : List SInstr) : Nat → SFrame → Except Err (List Int)
  | 0, _ => Except.error Err.fuelExhausted
  | n + 1, st =>
    match sStep prog st with
    | Except.error e => Except.error e
    | Except.ok none => Except.ok st.outp
    | Except.ok (some st2) => sRun prog n st2

def forProgUp : List SInstr :=
  [SInstr.forI "i" 0 3 1, SInstr.exportI "i", SInstr.nextI "i", SInstr.endprocI]

def forProgDown : List SInstr :=
  [SInstr.forI "i" 3 0 (-1), SInstr.exportI "i", SInstr.nextI "i", SInstr.endprocI]

def sInit : SFrame := { pc := 0, scope := [], loop_stack := [], outp := [] }

/-- Embedding of `BoolArray.__getitem__` on a slice `[hi..lo]` (both
inclusive): when `hi < lo` the extracted run is logically reversed. -/
def boolArraySlice (a : List Bool) (hi lo : Nat) : List Bool :=
  if hi < lo then ((a.drop hi).take (lo - hi + 1)).reverse
  else (a.drop lo).take (hi - lo + 1)

/-- Data preparation of the DRSCAN branch of `StaplInterpreter.execute`:
zero-extend with `extend` when under length, truncate with the slice
`[length-1..0]` when over length. -/
def drScanData (a : List Bool) (len : Nat) : List Bool :=
  if a.length < len then a ++ List.replicate (len - a.length) false
  else if len < a.length then boolArraySlice a (len - 1) 0
  else a

/-- Data preparation of the IRSCAN branch: under-length data raises a
fatal STAPL error; over-length data is truncated with `[length-1..0]`. -/
def irScanData (a : List Bool) (len : Nat) : Except Err (List Bool) :=
  if a.length < len then Except.error Err.underLength
  else if a.length ≠ len then Except.ok (boolArraySlice a (len - 1) 0)
  else Except.ok a

/-- One bit of the CCITT-16 update loop in `Crc.__init__`
(`stapl/stapl.py`): the pair carries the remaining byte bits and the CRC
register. -/
def crcBitStep (p : Nat × Nat) : Nat × Nat :=
  let feedback := (p.1 ^^^ p.2) &&& 1
  let reg := p.2 >>> 1
  let reg := if feedback = 1 then reg ^^^ 0x8408 else reg
  (p.1 >>> 1, reg)

/-- Process one input byte: eight bit steps. -/
def crcByte (reg b : Nat) : Nat :=
  ((List.range 8).foldl (fun p _ => crcBitStep p) (b, reg)).2

/-- The CRC register over the file bytes before the CRC token, skipping
carriage-return bytes, initialised to 0xFFFF. -/
def crcRegister (bytes : List Nat) : Nat :=
  bytes.foldl (fun reg b => if b = 13 then reg else crcByte reg b) 0xFFFF

/-- The computed checksum: complemented register masked to 16 bits. -/
def crcActual (bytes : List Nat) : Nat :=
  (crcRegister bytes ^^^ 0xFFFF) &&& 0xFFFF

structure CrcTok where
  expected : Nat
  actual : Nat
  deriving DecidableEq, Repr

/-- Embedding of `Crc.__init__`: parse the hexadecimal token; when the
expected value is nonzero compute the CCITT-16 checksum of the preceding
bytes, otherwise skip the computation entirely and record 0. -/
def mkCrc (bytes : List Nat) (tok : String) : Option CrcTok :=
  (parseHexNat tok).map fun expected =>
    if expected ≠ 0 then { expected := expected, actual := crcActual bytes }
    else { expected := expected, actual := 0 }

def crcIsCorrect (t : CrcTok) : Bool := t.actual == t.expected

/-- `StaplFile.__init__` emits the CRC warning iff `is_correct` is false. -/
def crcWarns (bytes : List Nat) (tok : String) : Option Bool :=
  (mkCrc bytes tok).map fun t => !crcIsCorrect t

/-- The counting loop `while transfer(0, 1) == 0` of `detect_chain`:
`remaining` bounds how many more times the counter may be incremented
before `MAX_IR_CHAIN_LENGTH` (255) is reached and "TDO stuck at 0" is
raised; it starts at 254 so that the raise happens exactly when the count
would reach 255. -/
def scanLenAux (drv : Nat → Bool) : Nat → TapCtl → Nat → Except Err Nat × TapCtl
  | 0, c, n =>
    let p := transfer drv c
    if p.1 then (Except.ok n, p.2) else (Except.error Err.stuck0, p.2)
  | r + 1, c, n =>
    let p := transfer drv c
    if p.1 then (Except.ok n, p.2) else scanLenAux drv r p.2 (n + 1)

/-- Body of `TapController.detect_chain` (the part inside `try`): flush IR
with zeros, check for TDO stuck at 1, count the zeros to the rising edge
(total IR length), move to UPDATE_IR then SHIFT_DR with all devices in
BYPASS, and repeat the count for the number of devices. -/
def detect_body (d : Driver) (c : TapCtl) : Except Err (Nat × Nat) × TapCtl :=
  let c := gotoC c SHIFT_IR
  let c := transmit c (List.replicate 255 false)
  let p := transfer d.tdo c
  if p.1 then (Except.error Err.stuck1, p.2)
  else
    match scanLenAux d.tdo 254 p.2 0 with
    | (Except.error e, c) => (Except.error e, c)
    | (Except.ok irlen, c) =>
      let c := gotoC c UPDATE_IR
      let c := gotoC c SHIFT_DR
      let c := transmit c (List.replicate 255 false)
      let p := transfer d.tdo c
      if p.1 then (Except.error Err.stuck1, p.2)
      else
        match scanLenAux d.tdo 254 p.2 0 with
        | (Except.error e, c) => (Except.error e, c)
        | (Except.ok drlen, c) => (Except.ok (drlen, irlen), c)

/-- Embedding of `TapController.detect_chain`: the `finally` block routes
to TEST_LOGIC_RESET on success and on every failure. -/
def detect_chain (d : Driver) (c : TapCtl) : Except Err (Nat × Nat) × TapCtl :=
  let p := detect_body d c
  (p.1, gotoC p.2 TEST_LOGIC_RESET)

/-- The IDCODE comparison loop of `validate_chain`: device `i` (TDI-most
first) is compared against the 32-bit slice
`idcode[len - i*32 - 32 : len - i*32]` taken from the top of the captured
register. -/
def idcodeCheckAux (bits : List Bool) : Nat → List Device → Except Err Unit
  | _, [] => Except.ok ()
  | i, dev :: ds =>
    if patternMatches dev.idcode ((bits.drop (bits.length - i * 32 - 32)).take 32) then
      idcodeCheckAux bits (i + 1) ds
    else Except.error Err.idcodeMismatch

/-- The `try` block of `validate_chain`: load IDCODE, read and compare the
IDCODE register, load SAMPLE and capture the initial boundary register.
Frequency configuration is omitted: it touches neither the TAP state nor
the TDO stream. -/
def validate_body (d : Driver) (c : TapCtl) (drlen : Nat) : Except Err Unit × TapCtl :=
  let q1 := load_instruction c "IDCODE"
  match q1.1 with
  | Except.error e => (Except.error e, q1.2)
  | Except.ok _ =>
    let q2 := read_register d.tdo q1.2 (32 * drlen)
    match q2.1 with
    | Except.error e => (Except.error e, q2.2)
    | Except.ok idbits =>
      match idcodeCheckAux idbits 0 q2.2.chain with
      | Except.error e => (Except.error e, q2.2)
      | Except.ok _ =>
        let q3 := load_instruction q2.2 "SAMPLE"
        match q3.1 with
        | Except.error e => (Except.error e, q3.2)
        | Except.ok _ =>
          let q4 := read_register d.tdo q3.2 (chainBrlen q3.2.chain)
          match q4.1 with
          | Except.error e => (Except.error e, q4.2)
          | Except.ok br =>
            match chainUpdateBrAux q4.2.chain br with
            | Except.error e => (Except.error e, q4.2)
            | Except.ok chain2 => (Except.ok (), { q4.2 with chain := chain2 })

/-- Embedding of `TapController.validate_chain`: run detection, check the
device count and the total IR length before the `try` block, then run the
validation body with `validated` set; on a body failure `validated` is
cleared and the error re-raised; the `finally` block routes to
RUN_TEST_IDLE in both outcomes. -/
def validate_chain (d : Driver) (c : TapCtl) : Except Err Unit × TapCtl :=
  let p := detect_chain d c
  match p.1 with
  | Except.error e => (Except.error e, p.2)
  | Except.ok dl =>
    if dl.1 ≠ p.2.chain.length then (Except.error Err.devCountMismatch, p.2)
    else if dl.2 ≠ (p.2.chain.map fun dev => dev.irlen).sum then
      (Except.error Err.irLenMismatch, p.2)
    else
      let q := validate_body d (setValidated p.2 true) dl.1
      match q.1 with
      | Except.ok _ => (Except.ok (), gotoC q.2 RUN_TEST_IDLE)
      | Except.error e => (Except.error e, gotoC (setValidated q.2 false) RUN_TEST_IDLE)

/-- The chain errors that are raised before the validation `try` block
(during detection or by the count checks). -/
def chainErrsPre : List Err :=
  [Err.stuck0, Err.stuck1, Err.devCountMismatch, Err.irLenMismatch]

/-- Devices and driver of the concrete C5 run: one device with IR length
2 and an all-zero IDCODE pattern; the TDO stream makes detection succeed
with (1 device, IR length 2) and then returns a 1 in the IDCODE register,
so the IDCODE comparison fails. -/
def dev5 : Device :=
  { irlen := 2, idcode := List.replicate 32 StdLogic.S0,
    opcodes := [("BYPASS", [true, true]), ("IDCODE", [false, true]), ("SAMPLE", [true, false])],
    cells := [] }

def drv5 : Driver :=
  { tdo := fun n => n == 3 || n == 6 || n == 7, duplex := fun x => x }

def ctl5 : TapCtl :=
  { state := TEST_LOGIC_RESET, pos := 0, validated := false, chain := [dev5],
    cycle_counter := 0, shifts := [] }

/-- The routing loop of `_goto` terminates for every ordered pair of states,
within 16 TMS cycles. -/
theorem gotoSteps_total : ∀ s t : TapState, (gotoSteps 16 s t).isSome := by decide

/-- C1. For every ordered pair of the 16 TAP states, `enter_state(to)`
starting from `from` terminates (the TMS routing loop of `_goto` reaches
the target within its finite step budget) and leaves the controller state
equal to `to`. -/
theorem C1_enter_state_total_and_correct (c : TapCtl) (t : TapState) :
    ∃ c2, enter_state c t = some c2 ∧ c2.state = t := by
  have h := gotoSteps_total c.state t
  cases hg : gotoSteps 16 c.state t with
  | none => rw [hg] at h; simp at h
  | some l =>
    refine ⟨{ c with state := t }, ?_, rfl⟩
    show (gotoSteps 16 c.state t).map _ = _
    rw [hg]
    rfl

theorem genIrAux_ok (instr : String) :
    ∀ (chain : List Device) (acc : List Bool),
      (∀ dev ∈ chain, (dev.opcodes.lookup instr).isSome) →
      genIrAux instr chain acc = Except.ok (irStreamSpec chain instr ++ acc) := by
  intro chain
  induction chain with
  | nil => intro acc _; simp [genIrAux, irStreamSpec]
  | cons dev ds ih =>
    intro acc hall
    have hdev : (dev.opcodes.lookup instr).isSome := hall dev (by simp)
    cases hop : dev.opcodes.lookup instr with
    | none => rw [hop] at hdev; simp at hdev
    | some op =>
      have hrest : ∀ d ∈ ds, (d.opcodes.lookup instr).isSome := by
        intro d hd; exact hall d (by simp [hd])
      calc genIrAux instr (dev :: ds) acc
          = genIrAux instr ds (op ++ acc) := by simp [genIrAux, hop]
        _ = Except.ok (irStreamSpec ds instr ++ (op ++ acc)) := ih (op ++ acc) hrest
        _ = Except.ok (irStreamSpec (dev :: ds) instr ++ acc) := by
            simp [irStreamSpec, hop, List.append_assoc]

/-- C2 counterexample. In the chain `[devA, devB]` (devA TDI-most, opcode
`[1]`; devB opcode `[0,0]`), `load_instruction` shifts the stream
`[0,0,1]` in SHIFT_IR: the low bits (bit 0 upward) are devB's opcode, not
devA's, so the TDI-most device's opcode does not occupy the low bits as
the claim states. -/
theorem C2_counterexample :
    (load_instruction ctlAB "EXTEST").2.shifts = [(SHIFT_IR, [false, false, true])] ∧
      [false, false, true].take 1 ≠ [true] := by
  constructor
  · rfl
  · decide

/-- C2 (amended). For a validated chain in which every device supports the
instruction, `load_instruction` succeeds; each next device's opcode is
prepended to the stream, so the shifted stream is the concatenation of the
opcodes in reverse chain order and the TDI-most device's opcode occupies
the high bits; the stream is shifted in SHIFT_IR and the controller ends
in UPDATE_IR. -/
theorem C2_load_instruction_stream (c : TapCtl) (instr : String)
    (hv : c.validated = true)
    (hall : ∀ dev ∈ c.chain, (dev.opcodes.lookup instr).isSome) :
    load_instruction c instr =
      (Except.ok (),
        { c with
          state := UPDATE_IR,
          shifts := c.shifts ++ [(SHIFT_IR, irStreamSpec c.chain instr)] }) := by
  have hgen : generateIr c.chain instr = Except.ok (irStreamSpec c.chain instr) := by
    have h := genIrAux_ok instr c.chain [] hall
    simpa [generateIr] using h
  simp [load_instruction, hv, hgen, gotoC, transmit]

/-- C2 witness: the amended theorem evaluated on the concrete two-device
chain. -/
theorem C2_load_instruction_stream_witness :
    load_instruction ctlAB "EXTEST" =
      (Except.ok (),
        { ctlAB with
          state := UPDATE_IR,
          shifts := [(SHIFT_IR, irStreamSpec ctlAB.chain "EXTEST")] }) := by
  have h := C2_load_instruction_stream ctlAB "EXTEST" (by decide)
    (by intro dev hdev; fin_cases hdev <;> decide)
  simpa using h

theorem read_write_register_ok (d : Driver) (c : TapCtl) (tdi : List Bool)
    (hv : c.validated = true) :
    read_write_register d c tdi =
      (Except.ok (d.duplex tdi),
        { c with state := UPDATE_DR, shifts := c.shifts ++ [(SHIFT_DR, tdi)] }) := by
  simp [read_write_register, hv, gotoC, transmit]

theorem zipWith_store_generate (cells : List Cell) :
    List.zipWith (fun cl b => { cl with in_value := some b }) cells
      (cells.map fun cl => decide (cl.out_value ≠ 0)) = cells.map cellEcho := by
  induction cells with
  | nil => rfl
  | cons c0 cs ih =>
    simp only [List.map_cons, List.zipWith_cons_cons, ih]
    rfl

theorem deviceUpdateBr_generate (dev : Device) :
    deviceUpdateBr dev (deviceGenerateBr dev) = Except.ok (deviceEcho dev) := by
  unfold deviceUpdateBr deviceGenerateBr deviceEcho
  rw [List.length_map, if_neg (by simp)]
  rw [zipWith_store_generate]

theorem chainUpdateBr_single (dev : Device) :
    chainUpdateBrAux [dev] (deviceGenerateBr dev) = Except.ok [deviceEcho dev] := by
  have hlen : dev.cells.length = (deviceGenerateBr dev).length := by
    simp [deviceGenerateBr]
  unfold chainUpdateBrAux
  rw [hlen, List.take_length, deviceUpdateBr_generate]
  simp [chainUpdateBrAux]

/-- C3 counterexample. On the validated two-device chain `[devP, devQ]`
with an exact-loopback driver, one cycle succeeds but devP's cell captures
devQ's output and vice versa: `generate_br` prepends devices (TDI-most at
the high bits) while `update_br` slices the captured string low-to-high, so
not every cell's `in_value` equals its own prior `out_value`. -/
theorem C3_counterexample :
    (scanOnce loopbackDrv ctlPQ).1 = Except.ok () ∧
      ((scanOnce loopbackDrv ctlPQ).2.chain.map fun dev => dev.cells.map (·.in_value)) =
        [[some true], [some false]] ∧
      (ctlPQ.chain.map fun dev => dev.cells.map fun cl => some (decide (cl.out_value ≠ 0))) =
        [[some false], [some true]] ∧
      ([[some true], [some false]] : List (List (Option Bool))) ≠
        [[some false], [some true]] := by
  refine ⟨rfl, rfl, rfl, by decide⟩

/-- C3 (amended). For a validated single-device chain, if the full-duplex
DR shift returns exactly the bits shifted out, then one boundary-register
cycle succeeds and afterwards every cell's `in_value` equals the bit of the
`out_value` that cell had just before the cycle. -/
theorem C3_single_device_roundtrip (d : Driver) (hd : ∀ x, d.duplex x = x)
    (dev : Device) (c : TapCtl) (hv : c.validated = true) (hch : c.chain = [dev]) :
    (scanOnce d c).1 = Except.ok () ∧ (scanOnce d c).2.chain = [deviceEcho dev] := by
  have hbr : chainGenerateBr c.chain = deviceGenerateBr dev := by
    simp [chainGenerateBr, hch]
  have h1 := read_write_register_ok d c (chainGenerateBr c.chain) hv
  simp only [scanOnce]
  rw [h1]
  simp only [hd, hbr]
  simp [hch, chainUpdateBr_single]

/-- C3 witness: the amended theorem evaluated on the concrete single-device
controller with the loopback driver. -/
theorem C3_single_device_roundtrip_witness :
    (scanOnce loopbackDrv
        { state := RUN_TEST_IDLE, pos := 0, validated := true, chain := [devP],
          cycle_counter := 0, shifts := [] }).1 = Except.ok () ∧
      (scanOnce loopbackDrv
        { state := RUN_TEST_IDLE, pos := 0, validated := true, chain := [devP],
          cycle_counter := 0, shifts := [] }).2.chain = [deviceEcho devP] :=
  C3_single_device_roundtrip loopbackDrv (fun _ => rfl) devP _ rfl rfl

theorem schedRun_add (d : Driver) (m n : Nat) :
    ∀ s, schedRun d (m + n) s = schedRun d n (schedRun d m s) := by
  induction m with
  | zero => intro s; rw [Nat.zero_add]; rfl
  | succ m ih =>
    intro s
    have hmn : m + 1 + n = m + n + 1 := by omega
    rw [hmn]
    show schedRun d (m + n) (schedStep d s) = schedRun d n (schedRun d (m + 1) s)
    rw [ih (schedStep d s)]
    rfl

theorem schedRun_phaseA (d : Driver) :
    ∀ (a : Nat) (rs : List Nat) (s : Sched),
      s.queue = List.replicate a TaskPhase.begun ++ rs.map TaskPhase.resumed →
      schedRun d a s =
        { s with queue := (rs ++ List.replicate a s.ctl.cycle_counter).map TaskPhase.resumed } := by
  intro a
  induction a with
  | zero =>
    intro rs s hq
    cases s
    simp_all [schedRun]
  | succ a ih =>
    intro rs s hq
    have hq2 : s.queue =
        TaskPhase.begun :: (List.replicate a TaskPhase.begun ++ rs.map TaskPhase.resumed) := by
      rw [hq, List.replicate_succ, List.cons_append]
    have hstep : schedStep d s =
        { s with queue := List.replicate a TaskPhase.begun ++
            (rs ++ [s.ctl.cycle_counter]).map TaskPhase.resumed } := by
      unfold schedStep
      rw [hq2]
      simp [List.append_assoc]
    show schedRun d a (schedStep d s) = _
    rw [hstep, ih (rs ++ [s.ctl.cycle_counter]) _ rfl]
    cases s
    simp [List.append_assoc, List.replicate_succ]

theorem schedRun_stale (d : Driver) :
    ∀ (b : Nat) (v : Nat) (s : Sched),
      s.queue = List.replicate b (TaskPhase.resumed v) →
      v ≠ s.ctl.cycle_counter →
      schedRun d b s = { s with queue := [], obs := s.obs ++ List.replicate b s.ctl } := by
  intro b
  induction b with
  | zero =>
    intro v s hq hv
    cases s
    simp_all [schedRun]
  | succ b ih =>
    intro v s hq hv
    have hq2 : s.queue = TaskPhase.resumed v :: List.replicate b (TaskPhase.resumed v) := by
      rw [hq, List.replicate_succ]
    have hstep : schedStep d s =
        { s with queue := List.replicate b (TaskPhase.resumed v), obs := s.obs ++ [s.ctl] } := by
      unfold schedStep
      rw [hq2]
      simp [hv]
    show schedRun d b (schedStep d s) = _
    rw [hstep, ih v _ rfl (by simpa using hv)]
    cases s
    simp [List.append_assoc, List.replicate_succ]

theorem read_write_register_counter (d : Driver) (c : TapCtl) (tdi : List Bool) :
    (read_write_register d c tdi).2.cycle_counter = c.cycle_counter := by
  unfold read_write_register
  by_cases hv : c.validated <;> simp [hv, gotoC, transmit]

theorem scanOnce_counter (d : Driver) (c c2 : TapCtl)
    (h : scanOnce d c = (Except.ok (), c2)) :
    c2.cycle_counter = c.cycle_counter + 1 := by
  simp only [scanOnce] at h
  split at h
  · simp at h
  · split at h
    · simp at h
    · simp only [Prod.mk.injEq] at h
      rw [← h.2]
      simp [read_write_register_counter]

/-- C4. With `k ≥ 1` cooperative tasks each calling `cycle()` once on the
same controller, run to completion by the FIFO scheduler: exactly one
boundary-register scan is performed, `cycle_counter` increases by exactly
1 (not by `k`), and every one of the `k` tasks observes the same
post-scan controller snapshot (hence the same captured input vector). -/
theorem C4_cooperative_single_cycle (d : Driver) (k : Nat) (hk : 1 ≤ k)
    (c c2 : TapCtl) (hscan : scanOnce d c = (Except.ok (), c2)) :
    (schedRun d (2 * k) (initSched k c)).scans = 1 ∧
      (schedRun d (2 * k) (initSched k c)).ctl.cycle_counter = c.cycle_counter + 1 ∧
      (schedRun d (2 * k) (initSched k c)).obs = List.replicate k c2 ∧
      (schedRun d (2 * k) (initSched k c)).queue = [] := by
  obtain ⟨k0, rfl⟩ : ∃ k0, k = k0 + 1 := ⟨k - 1, by omega⟩
  have hsplit : 2 * (k0 + 1) = (k0 + 1) + (1 + k0) := by omega
  have hcnt : c2.cycle_counter = c.cycle_counter + 1 := scanOnce_counter d c c2 hscan
  have hA : schedRun d (k0 + 1) (initSched (k0 + 1) c) =
      { queue := List.map TaskPhase.resumed (List.replicate (k0 + 1) c.cycle_counter),
        ctl := c, scans := 0, obs := [], failed := false } := by
    have h := schedRun_phaseA d (k0 + 1) [] (initSched (k0 + 1) c) (by simp [initSched])
    simpa [initSched] using h
  have hstep : schedStep d
      { queue := List.map TaskPhase.resumed (List.replicate (k0 + 1) c.cycle_counter),
        ctl := c, scans := 0, obs := [], failed := false } =
      { queue := List.replicate k0 (TaskPhase.resumed c.cycle_counter),
        ctl := c2, scans := 1, obs := [c2], failed := false } := by
    simp [schedStep, hscan, List.replicate_succ, List.map_replicate]
  have hstale : schedRun d k0
      { queue := List.replicate k0 (TaskPhase.resumed c.cycle_counter),
        ctl := c2, scans := 1, obs := [c2], failed := false } =
      { queue := [], ctl := c2, scans := 1, obs := c2 :: List.replicate k0 c2,
        failed := false } := by
    have h := schedRun_stale d k0 c.cycle_counter
      { queue := List.replicate k0 (TaskPhase.resumed c.cycle_counter),
        ctl := c2, scans := 1, obs := [c2], failed := false } rfl (by simp [hcnt])
    simpa using h
  rw [hsplit, schedRun_add d (k0 + 1) (1 + k0), schedRun_add d 1 k0, hA]
  have hrun1 : ∀ s, schedRun d 1 s = schedStep d s := fun _ => rfl
  rw [hrun1, hstep, hstale]
  refine ⟨rfl, by simp [hcnt], ?_, rfl⟩
  simp [List.replicate_succ]

/-- C4 witness: three tasks sharing `ctlW`, run for six scheduler steps. -/
theorem C4_cooperative_single_cycle_witness :
    (schedRun loopbackDrv (2 * 3) (initSched 3 ctlW)).scans = 1 ∧
      (schedRun loopbackDrv (2 * 3) (initSched 3 ctlW)).ctl.cycle_counter =
        ctlW.cycle_counter + 1 ∧
      (schedRun loopbackDrv (2 * 3) (initSched 3 ctlW)).obs = List.replicate 3 ctlW2 ∧
      (schedRun loopbackDrv (2 * 3) (initSched 3 ctlW)).queue = [] :=
  C4_cooperative_single_cycle loopbackDrv 3 (by decide) ctlW ctlW2 (by rfl)

/-- C6 counterexample. On a pin that has an output cell but neither a
control cell nor an input cell, `output_enable(False)` does not raise: the
call returns normally and leaves the cells unchanged (the source raises in
the no-control-cell branch only when an input cell is present). -/
theorem C6_counterexample :
    output_enable cellsOutOnly pinOutOnly false = Except.ok cellsOutOnly := by
  rfl

/-- C6 (amended). `output_enable(False)` on a permanently-output pin
(output cell, no control cell, no input cell) is a silent no-op rather
than an error; for every pin with an output cell and a control cell,
`output_enable(True)` sets the control cell's `out_value` to
`disable_value XOR 1` and `output_enable(False)` sets it to
`disable_value`. -/
theorem C6_output_enable_contract (cells : List Cell) (p : Pin) :
    (∀ oc, p.output_cell = some oc → p.control_cell = none → p.input_cell = none →
      output_enable cells p false = Except.ok cells) ∧
    (∀ oc cc ocell ccell,
      p.output_cell = some oc → p.control_cell = some cc →
      cells[oc]? = some ocell → cells[cc]? = some ccell → ocell.out_dis_ctl ≤ 1 →
      output_enable cells p true =
          Except.ok (cells.set cc { ccell with out_value := ocell.out_dis_ctl ^^^ 1 }) ∧
        output_enable cells p false =
          Except.ok (cells.set cc { ccell with out_value := ocell.out_dis_ctl })) := by
  constructor
  · intro oc hoc hcc hin
    simp [output_enable, hoc, hcc, hin]
  · intro oc cc ocell ccell hoc hcc hocell hccell hdis
    have hd : ocell.out_dis_ctl = 0 ∨ ocell.out_dis_ctl = 1 := by omega
    rcases hd with hd | hd <;>
      simp [output_enable, hoc, hcc, hocell, hccell, hd]

/-- C6 witness: the amended contract evaluated on a concrete
permanently-output pin and on a concrete control-celled pin. -/
theorem C6_output_enable_contract_witness :
    output_enable cellsOutOnly { pinOutOnly with output_cell := some 0 } false =
        Except.ok cellsOutOnly ∧
      output_enable cellsBidir pinBidir true =
        Except.ok [{ out_value := 0, in_value := none, out_dis_ctl := 1 },
          { out_value := 0, in_value := none, out_dis_ctl := 0 }] ∧
      output_enable cellsBidir pinBidir false =
        Except.ok [{ out_value := 0, in_value := none, out_dis_ctl := 1 },
          { out_value := 1, in_value := none, out_dis_ctl := 0 }] := by
  have h1 := (C6_output_enable_contract cellsOutOnly
      { pinOutOnly with output_cell := some 0 }).1 0 rfl rfl rfl
  have h2 := (C6_output_enable_contract cellsBidir pinBidir).2 0 1
    { out_value := 0, in_value := none, out_dis_ctl := 1 }
    { out_value := 0, in_value := none, out_dis_ctl := 0 }
    rfl rfl rfl rfl (by decide)
  exact ⟨h1, h2.1.trans (by rfl), h2.2.trans (by rfl)⟩

/-- C7. Evidence of the divergence: the source's `Literal` turns `#1011`
into the plain integer 11 and `evaluate` returns the `Int` value 11, not a
`BoolArray`; the `BoolArray` constructor applied to the digit string
"1011" does produce the 4-bit little-endian vector with bit 0 = 1,
bit 1 = 1, bit 2 = 0, bit 3 = 1 that the claim (and the interpreter,
which calls `extend`/`to_bitarray` on evaluated scan data) expects. -/
theorem C7_literal_int_not_boolarray :
    (literalValue (StaplToken.strTok "#1011")).map literalEvaluate =
        some (ExprVal.intV 11) ∧
      boolArrayOfString "1011" = some [true, true, false, true] := by
  exact ⟨by rfl, by rfl⟩

/-- C8. `FOR i = 0 TO 3 ... NEXT i` runs the body exactly four times with
`i` taking 0, 1, 2, 3 in order, and `FOR i = 3 TO 0 STEP -1 ... NEXT i`
runs it exactly four times with `i` taking 3, 2, 1, 0 in order. -/
theorem C8_for_next_bounds :
    sRun forProgUp 32 sInit = Except.ok [0, 1, 2, 3] ∧
      sRun forProgDown 32 sInit = Except.ok [3, 2, 1, 0] := by
  exact ⟨by decide, by decide⟩

/-- C9. For every target length of at least one bit: DRSCAN data becomes
the first `len` bits of the array zero-extended to `len` (so shorter data
is zero-extended and longer data truncated), while IRSCAN raises on
shorter data and truncates longer data to `len` bits. -/
theorem C9_scan_length_adjust (a : List Bool) (len : Nat) (hlen : 1 ≤ len) :
    drScanData a len = a.take len ++ List.replicate (len - a.length) false ∧
      irScanData a len =
        (if a.length < len then Except.error Err.underLength
         else Except.ok (a.take len)) := by
  have hslice : len ≤ a.length → boolArraySlice a (len - 1) 0 = a.take len := by
    intro hle
    unfold boolArraySlice
    rw [if_neg (by omega)]
    rw [List.drop_zero]
    congr 1
    omega
  constructor
  · unfold drScanData
    by_cases h1 : a.length < len
    · rw [if_pos h1, List.take_of_length_le (by omega)]
    · rw [if_neg h1]
      by_cases h2 : len < a.length
      · rw [if_pos h2, hslice (by omega), Nat.sub_eq_zero_of_le (by omega)]
        simp
      · rw [if_neg h2]
        have heq : a.length = len := by omega
        rw [Nat.sub_eq_zero_of_le (by omega)]
        simp [List.take_of_length_le (le_of_eq heq)]
  · by_cases h1 : a.length < len
    · simp [irScanData, h1]
    · by_cases h2 : a.length = len
      · simp [irScanData, h1, h2, List.take_of_length_le (le_of_eq h2)]
      · simp [irScanData, h1, h2, hslice (by omega)]

/-- C9 counterexample. With evaluated length 0 and a longer data array the
truncating slice `[length-1..0]` becomes `[-1..0]` and still extracts one
bit, so the data is not truncated to the evaluated length as the claim
states: DRSCAN shifts one bit and IRSCAN accepts one bit. -/
theorem C9_counterexample :
    drScanData [true, true] 0 = [true] ∧
      irScanData [true, true] 0 = Except.ok [true] ∧
      ([true] : List Bool) ≠ [] := by
  exact ⟨by decide, by decide, by decide⟩

/-- C9 witness: data `[1]` against length 3 is zero-extended by DRSCAN and
rejected by IRSCAN. -/
theorem C9_scan_length_adjust_witness :
    drScanData [true] 3 = [true, false, false] ∧
      irScanData [true] 3 = Except.error Err.underLength := by
  have h := C9_scan_length_adjust [true] 3 (by decide)
  exact ⟨h.1.trans (by decide), h.2.trans (by decide)⟩

/-- C10. With the CRC token `0000` the checksum computation is skipped and
the CRC is treated as correct, so no warning is possible regardless of the
file bytes; for a nonzero token the CCITT-16 checksum is computed and the
warning fires exactly when it differs from the token value. -/
theorem C10_crc_zero_token_skips_check :
    (∀ bytes, crcWarns bytes "0000" = some false) ∧
      (∀ bytes tok e, parseHexNat tok = some e → e ≠ 0 →
        crcWarns bytes tok = some (!(crcActual bytes == e))) := by
  constructor
  · intro bytes
    have hp : parseHexNat "0000" = some 0 := by decide
    simp [crcWarns, mkCrc, hp, crcIsCorrect]
  · intro bytes tok e hp he
    simp [crcWarns, mkCrc, hp, he, crcIsCorrect]

theorem scanLenAux_err (drv : Nat → Bool) :
    ∀ (r : Nat) (c : TapCtl) (n : Nat) (e : Err),
      (scanLenAux drv r c n).1 = Except.error e → e = Err.stuck0 := by
  intro r
  induction r with
  | zero =>
    intro c n e h
    by_cases hb : (transfer drv c).1
    · simp [scanLenAux, hb] at h
    · simp [scanLenAux, hb] at h
      exact h.symm
  | succ r ih =>
    intro c n e h
    by_cases hb : (transfer drv c).1
    · simp [scanLenAux, hb] at h
    · simp [scanLenAux, hb] at h
      exact ih _ _ _ h

theorem detect_body_err (d : Driver) (c : TapCtl) (e : Err)
    (h : (detect_body d c).1 = Except.error e) : e = Err.stuck0 ∨ e = Err.stuck1 := by
  simp only [detect_body] at h
  split at h
  · simp at h
    exact Or.inr h.symm
  · split at h
    next e2 c2 heq =>
      simp at h
      subst h
      exact Or.inl (scanLenAux_err d.tdo 254 _ 0 e2 (by rw [heq]))
    next irlen c2 heq =>
      split at h
      · simp at h
        exact Or.inr h.symm
      · split at h
        next e3 c3 heq2 =>
          simp at h
          subst h
          exact Or.inl (scanLenAux_err d.tdo 254 _ 0 e3 (by rw [heq2]))
        next drlen c3 heq2 =>
          simp at h

theorem detect_chain_state (d : Driver) (c : TapCtl) :
    (detect_chain d c).2.state = TEST_LOGIC_RESET := rfl

theorem detect_chain_err (d : Driver) (c : TapCtl) (e : Err)
    (h : (detect_chain d c).1 = Except.error e) : e = Err.stuck0 ∨ e = Err.stuck1 :=
  detect_body_err d c e h

theorem genIrAux_err (instr : String) :
    ∀ (chain : List Device) (acc : List Bool) (e : Err),
      genIrAux instr chain acc = Except.error e → e = Err.instrUnsupported := by
  intro chain
  induction chain with
  | nil => intro acc e h; simp [genIrAux] at h
  | cons dev ds ih =>
    intro acc e h
    cases hop : dev.opcodes.lookup instr with
    | none =>
      simp [genIrAux, hop] at h
      exact h.symm
    | some op =>
      simp [genIrAux, hop] at h
      exact ih _ _ h

theorem load_instruction_err (c : TapCtl) (instr : String) (e : Err)
    (h : (load_instruction c instr).1 = Except.error e) :
    e = Err.chainNotValidated ∨ e = Err.instrUnsupported := by
  by_cases hv : c.validated
  · simp only [load_instruction, hv, Bool.not_true, Bool.false_eq_true, if_false] at h
    cases hg : generateIr c.chain instr with
    | error e2 =>
      rw [hg] at h
      simp at h
      subst h
      exact Or.inr (genIrAux_err instr c.chain [] e2 (by simpa [generateIr] using hg))
    | ok bits =>
      rw [hg] at h
      simp at h
  · simp [load_instruction, hv] at h
    exact Or.inl h.symm

theorem read_register_err (drv : Nat → Bool) (c : TapCtl) (n : Nat) (e : Err)
    (h : (read_register drv c n).1 = Except.error e) : e = Err.chainNotValidated := by
  by_cases hv : c.validated
  · simp [read_register, hv] at h
  · simp [read_register, hv] at h
    exact h.symm

theorem idcodeCheckAux_err (bits : List Bool) :
    ∀ (devs : List Device) (i : Nat) (e : Err),
      idcodeCheckAux bits i devs = Except.error e → e = Err.idcodeMismatch := by
  intro devs
  induction devs with
  | nil => intro i e h; simp [idcodeCheckAux] at h
  | cons dev ds ih =>
    intro i e h
    by_cases hm : patternMatches dev.idcode ((bits.drop (bits.length - i * 32 - 32)).take 32)
    · simp [idcodeCheckAux, hm] at h
      exact ih (i + 1) e h
    · simp [idcodeCheckAux, hm] at h
      exact h.symm

theorem deviceUpdateBr_err (dev : Device) (br : List Bool) (e : Err)
    (h : deviceUpdateBr dev br = Except.error e) : e = Err.brLenMismatch := by
  unfold deviceUpdateBr at h
  by_cases hl : br.length ≠ dev.cells.length
  · simp [hl] at h
    exact h.symm
  · simp [hl] at h

theorem chainUpdateBrAux_err :
    ∀ (devs : List Device) (br : List Bool) (e : Err),
      chainUpdateBrAux devs br = Except.error e → e = Err.brLenMismatch := by
  intro devs
  induction devs with
  | nil => intro br e h; simp [chainUpdateBrAux] at h
  | cons dev ds ih =>
    intro br e h
    simp only [chainUpdateBrAux] at h
    cases hu : deviceUpdateBr dev (br.take dev.cells.length) with
    | error e2 =>
      rw [hu] at h
      simp at h
      subst h
      exact deviceUpdateBr_err _ _ _ hu
    | ok dev2 =>
      rw [hu] at h
      cases hr : chainUpdateBrAux ds (br.drop dev.cells.length) with
      | error e2 =>
        rw [hr] at h
        simp at h
        subst h
        exact ih _ _ hr
      | ok ds2 =>
        rw [hr] at h
        simp at h

theorem validate_body_err (d : Driver) (c : TapCtl) (drlen : Nat) (e : Err)
    (h : (validate_body d c drlen).1 = Except.error e) :
    e = Err.chainNotValidated ∨ e = Err.instrUnsupported ∨
      e = Err.idcodeMismatch ∨ e = Err.brLenMismatch := by
  simp only [validate_body] at h
  split at h
  next e2 heq =>
    simp at h
    subst h
    rcases load_instruction_err _ _ _ heq with h2 | h2
    · exact Or.inl h2
    · exact Or.inr (Or.inl h2)
  next u heq =>
    split at h
    next e2 heq2 =>
      simp at h
      subst h
      exact Or.inl (read_register_err _ _ _ _ heq2)
    next idbits heq2 =>
      split at h
      next e2 heq3 =>
        simp at h
        subst h
        exact Or.inr (Or.inr (Or.inl (idcodeCheckAux_err _ _ _ _ heq3)))
      next u2 heq3 =>
        split at h
        next e2 heq4 =>
          simp at h
          subst h
          rcases load_instruction_err _ _ _ heq4 with h2 | h2
          · exact Or.inl h2
          · exact Or.inr (Or.inl h2)
        next u3 heq4 =>
          split at h
          next e2 heq5 =>
            simp at h
            subst h
            exact Or.inl (read_register_err _ _ _ _ heq5)
          next br heq5 =>
            split at h
            next e2 heq6 =>
              simp at h
              subst h
              exact Or.inr (Or.inr (Or.inr (chainUpdateBrAux_err _ _ _ heq6)))
            next chain2 heq6 =>
              simp at h

/-- C5 (amended). The controller state after a chain error depends on
where the error is raised: `detect_chain` always leaves
TEST_LOGIC_RESET (its `finally` routes there on success and on failure,
covering TDO stuck at 0/1); `validate_chain` raises the device-count and
IR-length mismatches before its `try` block, leaving the
TEST_LOGIC_RESET reached by detection, while the errors of the
validation body — IDCODE mismatch included — pass through the `finally`
that routes to RUN_TEST_IDLE, not TEST_LOGIC_RESET. -/
theorem C5_chain_error_states (d : Driver) (c : TapCtl) :
    (detect_chain d c).2.state = TEST_LOGIC_RESET ∧
      ∀ e, (validate_chain d c).1 = Except.error e →
        (validate_chain d c).2.state =
          (if e ∈ chainErrsPre then TEST_LOGIC_RESET else RUN_TEST_IDLE) := by
  refine ⟨rfl, ?_⟩
  intro e h
  simp only [validate_chain] at h ⊢
  rcases hd : (detect_chain d c).1 with e2 | dl
  · rw [hd] at h
    dsimp only at h ⊢
    simp at h
    subst h
    rcases detect_chain_err d c e2 hd with h2 | h2 <;> subst h2 <;>
      simp [chainErrsPre, detect_chain_state]
  · rw [hd] at h
    dsimp only at h ⊢
    by_cases hc1 : dl.1 ≠ (detect_chain d c).2.chain.length
    · rw [if_pos hc1] at h ⊢
      simp at h
      subst h
      simp [chainErrsPre, detect_chain_state]
    · rw [if_neg hc1] at h ⊢
      by_cases hc2 : dl.2 ≠ ((detect_chain d c).2.chain.map fun dev => dev.irlen).sum
      · rw [if_pos hc2] at h ⊢
        simp at h
        subst h
        simp [chainErrsPre, detect_chain_state]
      · rw [if_neg hc2] at h ⊢
        rcases hq : (validate_body d (setValidated (detect_chain d c).2 true) dl.1).1
          with e3 | u
        · rw [hq] at h
          dsimp only at h ⊢
          simp at h
          subst h
          rcases validate_body_err _ _ _ _ hq with h3 | h3 | h3 | h3 <;> subst h3 <;>
            simp [chainErrsPre, gotoC]
        · rw [hq] at h
          dsimp only at h ⊢
          simp at h

/-- C5 counterexample. On the concrete single-device chain `ctl5` the
IDCODE comparison fails, `validate_chain` raises the chain error, and the
controller is left in RUN_TEST_IDLE, not TEST_LOGIC_RESET as the claim
states. -/
theorem C5_counterexample :
    (validate_chain drv5 ctl5).1 = Except.error Err.idcodeMismatch ∧
      (validate_chain drv5 ctl5).2.state = RUN_TEST_IDLE ∧
      RUN_TEST_IDLE ≠ TEST_LOGIC_RESET := by
  exact ⟨by decide, by decide, by decide⟩

/-- C5 witness: the amended theorem applied to the concrete
IDCODE-mismatch run. -/
theorem C5_chain_error_states_witness :
    (validate_chain drv5 ctl5).2.state =
      (if Err.idcodeMismatch ∈ chainErrsPre then TEST_LOGIC_RESET else RUN_TEST_IDLE) :=
  (C5_chain_error_states drv5 ctl5).2 Err.idcodeMismatch (by decide)

/-- C10 witness: the byte list `[65]` produces no warning with token
`0000`, and a warning with the nonzero token `ab` whose value differs
from the checksum. -/
theorem C10_crc_zero_token_skips_check_witness :
    crcWarns [65] "0000" = some false ∧ crcWarns [65] "ab" = some true := by
  refine ⟨C10_crc_zero_token_skips_check.1 [65], ?_⟩
  have h := C10_crc_zero_token_skips_check.2 [65] "ab" 171 (by decide) (by decide)
  exact h.trans (by decide)
